import Mathlib

/-!
Verification of the kalypso-backend Bridge integration.

Shallow embedding of:
  * the Bridge HTTP client retry / idempotency logic
    (src/services/cardService.js, BridgeClient) and its configuration
    (src/config/bridge.config.js);
  * the KYC status mapping and sync (src/services/customerService.js);
  * the webhook handlers (src/webhooks/bridge.js);
  * transfer cancellation (src/services/transferService.js);
  * notification creation with preference filtering
    (supabase config module, createNotification).

Amounts are modelled as rationals (JS numbers), timestamps as integers
(milliseconds since epoch), database tables as Lean lists of rows, and
the unique constraints of the SQL schema as explicit duplicate checks on
insert.
-/

namespace Kalypso

/-! ## Bridge client configuration (src/config/bridge.config.js) -/

structure BridgeConfig where
  timeout : Nat
  retryAttempts : Nat
  retryDelay : Nat
  retryableStatusCodes : List Nat
  deriving Repr, DecidableEq

/-- The literal configuration object of src/config/bridge.config.js. -/
def bridgeConfig : BridgeConfig :=
  { timeout := 30000
    retryAttempts := 3
    retryDelay := 1000
    retryableStatusCodes := [429, 500, 502, 503, 504] }

/-! ## Bridge client retry logic (src/services/cardService.js, BridgeClient)

An outbound HTTP attempt either succeeds or fails; a failure carries
either a response status or no response at all (network failure or
timeout, which axios surfaces as an error without a `response`). -/

inductive ErrorKind where
  | noResponse
  | status (code : Nat)
  deriving Repr, DecidableEq

inductive AttemptOutcome where
  | ok
  | fail (e : ErrorKind)
  deriving Repr, DecidableEq

/-- JS comparison `config._retryCount >= max` where `_retryCount` may be
undefined: `undefined >= max` is false for every `max`. -/
def retryCountGE (rc : Option Nat) (max : Nat) : Bool :=
  match rc with
  | none => false
  | some n => max ≤ n

/-- `BridgeClient._isRetryable`: no retry once `_retryCount` has reached
`retryAttempts`; otherwise retry on network errors (no response) and on
the configured retryable status codes. -/
def isRetryable (cfg : BridgeConfig) (rc : Option Nat) (e : ErrorKind) : Bool :=
  if retryCountGE rc cfg.retryAttempts then false
  else
    match e with
    | .noResponse => true
    | .status s => cfg.retryableStatusCodes.contains s

/-- Result of a logical request: success or terminal error, together with
the list of backoff delays (in ms) that were waited, one per retry, in
order. -/
inductive ReqResult where
  | ok (delays : List Nat)
  | err (e : ErrorKind) (delays : List Nat)
  deriving Repr, DecidableEq

/-- `BridgeClient._handleError` / `BridgeClient._retry`: run a logical
request against a trace of attempt outcomes supplied by the environment
(one entry per dispatched attempt).  `rc` is the mutable
`config._retryCount` (initially absent).  On a retryable failure the
count becomes `(rc || 0) + 1` and the client waits
`retryDelay * 2 ^ (count - 1)` before re-dispatching. -/
def runRequest (cfg : BridgeConfig) (rc : Option Nat) :
    List AttemptOutcome → ReqResult
  | [] => .err .noResponse []
  | .ok :: _ => .ok []
  | .fail e :: rest =>
    if isRetryable cfg rc e then
      let n := rc.getD 0 + 1
      let delay := cfg.retryDelay * 2 ^ (n - 1)
      match runRequest cfg (some n) rest with
      | .ok ds => .ok (delay :: ds)
      | .err e' ds => .err e' (delay :: ds)
    else .err e []

/-- An error kind the client classifies as transient (ignoring the
retry-count cap). -/
def transientError (cfg : BridgeConfig) : ErrorKind → Bool
  | .noResponse => true
  | .status s => cfg.retryableStatusCodes.contains s

/-! ## Idempotency key handling (BridgeClient._handleRequest)

The request interceptor runs before every dispatched attempt, the
retries included (a retry goes through `this.client(config)` again).
It auto-generates an `Idempotency-Key` header only for the methods
`post` and `put`, and only when the header is not already present. -/

/-- One run of the interceptor's idempotency-key step: `key` is the
header already on the config (if any), `fresh` the uuid that would be
generated. -/
def addIdempotencyKey (method : String) (key : Option String)
    (fresh : String) : Option String :=
  if method.toLower = "post" ∨ method.toLower = "put" then
    match key with
    | none => some fresh
    | some k => some k
  else key

/-- Keys attached on each successive attempt of one logical request:
the config's headers persist between attempts, and the interceptor runs
again on every attempt with a fresh uuid available. -/
def attemptKeys (method : String) (key : Option String) :
    List String → List (Option String)
  | [] => []
  | f :: fs =>
    let k := addIdempotencyKey method key f
    k :: attemptKeys method k fs

/-! ## Notification creation with preference filtering
(supabase config module: createNotification, getCategoryPreference,
meetsMinimumPriority) -/

structure NotificationPrefs where
  userId : Nat
  enableTransactionNotifications : Bool
  enableCardNotifications : Bool
  enableWalletNotifications : Bool
  enableKycNotifications : Bool
  enableSecurityNotifications : Bool
  enableSystemNotifications : Bool
  minPriorityLevel : String
  deriving Repr, DecidableEq

/-- `getCategoryPreference`: category-specific toggle; `general` and any
unknown category are always enabled. -/
def getCategoryPreference (p : NotificationPrefs) (category : String) : Bool :=
  match category with
  | "transaction" => p.enableTransactionNotifications
  | "card" => p.enableCardNotifications
  | "wallet" => p.enableWalletNotifications
  | "kyc" => p.enableKycNotifications
  | "security" => p.enableSecurityNotifications
  | "system" => p.enableSystemNotifications
  | "general" => true
  | _ => true

/-- The `priorityLevels` object: low 0, normal 1, high 2, urgent 3;
anything else is absent (undefined). -/
def priorityLevels : String → Option Nat
  | "low" => some 0
  | "normal" => some 1
  | "high" => some 2
  | "urgent" => some 3
  | _ => none

/-- JS `v || d` on an optional string: undefined and the empty string are
both falsy. -/
def jsStrOr (v : Option String) (d : String) : String :=
  match v with
  | some s => if s = "" then d else s
  | none => d

/-- JS `v || d` on an optional number: undefined and 0 are both falsy. -/
def jsNumOr (v : Option Nat) (d : Nat) : Nat :=
  match v with
  | none => d
  | some n => if n = 0 then d else n

/-- `meetsMinimumPriority`: `priorityLevels[p] || 1 >= priorityLevels[min] || 0`. -/
def meetsMinimumPriority (notificationPriority minPriority : String) : Bool :=
  jsNumOr (priorityLevels minPriority) 0 ≤ jsNumOr (priorityLevels notificationPriority) 1

structure NotifRow where
  userId : Nat
  type : String
  title : String
  message : String
  priority : String
  category : String
  deriving Repr, DecidableEq

/-- `createNotification`: looks up the caller's preferences row; when one
exists, the category toggle and the minimum-priority threshold may
suppress the notification (returning none); when no row exists the
notification is inserted unconditionally.  Options default to priority
`normal`, category `general`. -/
def createNotification (prefsTable : List NotificationPrefs) (userId : Nat)
    (type title message : String)
    (priority : String := "normal") (category : String := "general") :
    Option NotifRow :=
  match prefsTable.find? (fun p => p.userId = userId) with
  | some p =>
    if !(getCategoryPreference p category) then none
    else if !(meetsMinimumPriority priority p.minPriorityLevel) then none
    else some ⟨userId, type, title, message, priority, category⟩
  | none => some ⟨userId, type, title, message, priority, category⟩

/-! ## KYC status mapping (src/services/customerService.js) -/

structure Endorsement where
  name : String
  status : String
  deriving Repr, DecidableEq

/-- The `statusMap` object literal inside `mapBridgeStatusToKalypso`. -/
def customerStatusMap : String → Option String
  | "active" => some "approved"
  | "paused" => some "under_review"
  | "offboarded" => some "rejected"
  | _ => none

/-- Tier-2 qualification: some endorsement named `ach` or `base` with
status `approved`. -/
def hasRequiredEndorsements (endorsements : List Endorsement) : Bool :=
  endorsements.any fun e =>
    (e.name = "ach" ∨ e.name = "base") ∧ e.status = "approved"

structure KycResult where
  kycStatus : String
  kycTier : Nat
  deriving Repr, DecidableEq

/-- `mapBridgeStatusToKalypso`: status via the fixed map with default
`pending`; tier 2 iff a qualifying endorsement is approved, else 1. -/
def mapBridgeStatusToKalypso (bridgeStatus : String)
    (endorsements : List Endorsement := []) : KycResult :=
  { kycStatus := (customerStatusMap bridgeStatus).getD "pending"
    kycTier := if hasRequiredEndorsements endorsements then 2 else 1 }

/-- The `notificationConfig` table in `syncCustomerStatus`: type of the
themed notification per new KYC status (title/message elided to the
type; absent for statuses outside the table). -/
def kycNotificationConfig : String → Option (String × String)
  | "approved" => some ("success", "KYC Verification Complete")
  | "pending" => some ("info", "KYC Verification Pending")
  | "under_review" => some ("warning", "KYC Under Review")
  | "rejected" => some ("error", "KYC Verification Failed")
  | _ => none

/-- `syncCustomerStatus` (notification-relevant core): compares the
freshly mapped status/tier with the previously stored ones, updates the
user, and creates the themed notification only when something changed
and the new status is in the config table.  `previousStatus` defaults to
`not_started` and `previousTier` to 0 when the stored values are absent
(JS `||` defaults).  Returns the new (status, tier) and the notification
that was created, if any. -/
def syncCustomerStatus (prefsTable : List NotificationPrefs) (userId : Nat)
    (storedStatus : Option String) (storedTier : Option Nat)
    (bridgeStatus : String) (endorsements : List Endorsement) :
    (String × Nat) × Option NotifRow :=
  let previousStatus := jsStrOr storedStatus "not_started"
  let previousTier := storedTier.getD 0
  let r := mapBridgeStatusToKalypso bridgeStatus endorsements
  let statusChanged := previousStatus ≠ r.kycStatus ∨ previousTier ≠ r.kycTier
  let notif :=
    if statusChanged then
      match kycNotificationConfig r.kycStatus with
      | some (ty, title) =>
        createNotification prefsTable userId ty title ""
      | none => none
    else none
  ((r.kycStatus, r.kycTier), notif)

/-! ## Webhook handlers (src/webhooks/bridge.js) -/

/-! ### customer.updated -/

structure UserRow where
  id : Nat
  bridgeCustomerId : Option String
  kycStatus : String
  kycTier : Nat
  deriving Repr, DecidableEq

structure CustomerUpdatedEvent where
  customerId : String
  status : String
  endorsements : List Endorsement
  deriving Repr, DecidableEq

/-- `handleCustomerUpdated`: resolve the user by Bridge customer ID
(warn-and-return when absent), map the Bridge status with
`mapBridgeStatusToKalypso`, and update the user's `kyc_status` /
`kyc_tier`.  The handler writes an audit log but creates no
notification; the notifications list is passed through untouched. -/
def handleCustomerUpdated (users : List UserRow) (notifs : List NotifRow)
    (ev : CustomerUpdatedEvent) : List UserRow × List NotifRow :=
  match users.find? (fun u => u.bridgeCustomerId = some ev.customerId) with
  | none => (users, notifs)
  | some user =>
    let r := mapBridgeStatusToKalypso ev.status ev.endorsements
    (users.map fun u =>
      if u.id = user.id then
        { u with kycStatus := r.kycStatus, kycTier := r.kycTier }
      else u,
     notifs)

/-! ### transfer.updated -/

structure TxRow where
  id : Nat
  userId : Nat
  bridgeTransferId : String
  status : String
  bridgeState : String
  completedAt : Option Int
  updatedAt : Int
  deriving Repr, DecidableEq

/-- The `statusMap` object literal inside `handleTransferUpdated`. -/
def transferStatusMap : String → Option String
  | "pending" => some "pending"
  | "processing" => some "processing"
  | "payment_processed" => some "completed"
  | "failed" => some "failed"
  | "cancelled" => some "cancelled"
  | _ => none

/-- `statusMap[transfer.state] || 'processing'`. -/
def mappedTransferStatus (s : String) : String :=
  (transferStatusMap s).getD "processing"

/-- The per-row update `handleTransferUpdated` issues: new status from
the map, raw Bridge state and `updated_at` recorded, and `completed_at`
included in the update only when the new status is `completed` (other
statuses leave the column as it was). -/
def applyTransferUpdate (state : String) (now : Int) (t : TxRow) : TxRow :=
  let status := mappedTransferStatus state
  { t with
    status := status
    bridgeState := state
    updatedAt := now
    completedAt := if status = "completed" then some now else t.completedAt }

/-- `handleTransferUpdated`: look up the transaction by Bridge transfer
ID (warn-and-return when absent) and update that row. -/
def handleTransferUpdated (txs : List TxRow) (evTransferId evState : String)
    (now : Int) : List TxRow :=
  match txs.find? (fun t => t.bridgeTransferId = evTransferId) with
  | none => txs
  | some tx =>
    txs.map fun t =>
      if t.id = tx.id then applyTransferUpdate evState now t else t

/-! ### card.transaction.created -/

structure CardRow where
  id : Nat
  userId : Nat
  bridgeCardId : String
  dailySpendLimit : Rat
  monthlySpendLimit : Rat
  currentDailySpend : Rat
  currentMonthlySpend : Rat
  lastDailyReset : Int
  lastMonthlyReset : Int
  deriving Repr, DecidableEq

structure CardTxRow where
  cardId : Nat
  userId : Nat
  bridgeTransactionId : String
  amount : Rat
  currency : String
  type : String
  status : String
  settledAt : Option Int
  deriving Repr, DecidableEq

structure CardTransactionEvent where
  id : String
  cardId : Option String
  amount : Rat
  currency : Option String
  type : Option String
  status : Option String
  declineReason : Option String
  deriving Repr, DecidableEq

/-- `updateCardSpendingLimits`: lazy reset of the running counters.  If
at least 24 hours elapsed since `last_daily_reset`, the daily counter is
set to the new amount and the reset time refreshed, otherwise the amount
is added; identically for the monthly counter with a 30-day window.
Times are in milliseconds; the elapsed-hours/days comparisons divide
exactly as in the source. -/
def updateCardSpendingLimits (card : CardRow) (amount : Rat) (now : Int) :
    CardRow :=
  let hoursSinceDaily : Rat :=
    ((now : Rat) - (card.lastDailyReset : Rat)) / (1000 * 60 * 60)
  let shouldResetDaily := 24 ≤ hoursSinceDaily
  let daysSinceMonthly : Rat :=
    ((now : Rat) - (card.lastMonthlyReset : Rat)) / (1000 * 60 * 60 * 24)
  let shouldResetMonthly := 30 ≤ daysSinceMonthly
  { card with
    currentDailySpend :=
      if shouldResetDaily then amount else card.currentDailySpend + amount
    currentMonthlySpend :=
      if shouldResetMonthly then amount else card.currentMonthlySpend + amount
    lastDailyReset := if shouldResetDaily then now else card.lastDailyReset
    lastMonthlyReset :=
      if shouldResetMonthly then now else card.lastMonthlyReset }

structure CardState where
  cards : List CardRow
  cardTransactions : List CardTxRow
  prefs : List NotificationPrefs
  notifications : List NotifRow
  deriving Repr, DecidableEq

/-- `handleCardTransaction`: resolve the card by Bridge card ID
(warn-and-return when the ID is missing or the card unknown); insert a
CardTransaction row — the `card_transactions.bridge_transaction_id`
UNIQUE constraint rejects a duplicate insert, which the handler merely
logs; apply the spend-limit update only for approved purchases; then
always create the notification (priority `high` if declined else
`normal`, category `card`), subject only to preference filtering.
Notification title/message strings are abbreviated to their titles. -/
def handleCardTransaction (st : CardState) (ev : CardTransactionEvent)
    (now : Int) : CardState :=
  match ev.cardId with
  | none => st
  | some bridgeCardId =>
    match st.cards.find? (fun c => c.bridgeCardId = bridgeCardId) with
    | none => st
    | some card =>
      let currency := (ev.currency.getD "usd").toUpper
      let transactionType := ev.type.getD "purchase"
      let transactionStatus := ev.status.getD "pending"
      let isApproved :=
        transactionStatus = "approved" ∨ transactionStatus = "settled"
      let isDeclined := transactionStatus = "declined"
      let newRow : CardTxRow :=
        { cardId := card.id
          userId := card.userId
          bridgeTransactionId := ev.id
          amount := ev.amount
          currency := currency.toLower
          type := transactionType
          status := transactionStatus
          settledAt := if transactionStatus = "settled" then some now else none }
      let txs :=
        if st.cardTransactions.any (fun r => r.bridgeTransactionId = ev.id)
        then st.cardTransactions
        else newRow :: st.cardTransactions
      let cards :=
        if isApproved ∧ transactionType = "purchase" then
          st.cards.map fun c =>
            if c.id = card.id then updateCardSpendingLimits c ev.amount now
            else c
        else st.cards
      let nType := if isDeclined then "warning" else "info"
      let nTitle :=
        if isDeclined then "Card Declined"
        else if isApproved then "Card Purchase"
        else "Card Transaction"
      let notif :=
        createNotification st.prefs card.userId nType nTitle ""
          (if isDeclined then "high" else "normal") "card"
      { st with
        cards := cards
        cardTransactions := txs
        notifications :=
          match notif with
          | some n => n :: st.notifications
          | none => st.notifications }

/-! ### virtual_account.deposit.created -/

structure VirtualAccountRow where
  id : Nat
  userId : Nat
  bridgeAccountId : String
  deriving Repr, DecidableEq

/-- A row of the `bridge_transfers` table (deposits recorded by the
webhook and transfers cancelled by the transfer service). -/
structure TransferRow where
  userId : Nat
  bridgeTransferId : String
  transferType : String
  amount : Rat
  currency : String
  fee : Rat
  totalAmount : Rat
  status : String
  completedAt : Option Int
  cancelledAt : Option Int
  updatedAt : Int
  deriving Repr, DecidableEq

structure DepositEvent where
  id : String
  externalAccountId : Option String
  amount : Rat
  currency : Option String
  status : Option String
  completedAt : Option Int
  failureReason : Option String
  deriving Repr, DecidableEq

structure DepositState where
  virtualAccounts : List VirtualAccountRow
  bridgeTransfers : List TransferRow
  prefs : List NotificationPrefs
  notifications : List NotifRow
  deriving Repr, DecidableEq

/-- `handleVirtualAccountDeposit`: resolve the virtual account by Bridge
account ID (warn-and-return when the ID is missing or the account
unknown); insert an `ach` deposit record into `bridge_transfers` whose
status is `completed` when the deposit's status is `completed` and
`pending` otherwise (the `bridge_transfer_id` UNIQUE constraint rejects
a duplicate, which is merely logged); then create the notification
(priority `urgent` if failed, `high` if completed with amount at least
10000, else `normal`; category `transaction`). -/
def handleVirtualAccountDeposit (st : DepositState) (ev : DepositEvent)
    (now : Int) : DepositState :=
  match ev.externalAccountId with
  | none => st
  | some accId =>
    match st.virtualAccounts.find? (fun a => a.bridgeAccountId = accId) with
    | none => st
    | some va =>
      let status := ev.status.getD "pending"
      let record : TransferRow :=
        { userId := va.userId
          bridgeTransferId := ev.id
          transferType := "ach"
          amount := ev.amount
          currency := (ev.currency.getD "usd").toUpper.toLower
          fee := 0
          totalAmount := ev.amount
          status := if status = "completed" then "completed" else "pending"
          completedAt :=
            if status = "completed" then some (ev.completedAt.getD now)
            else none
          cancelledAt := none
          updatedAt := now }
      let transfers :=
        if st.bridgeTransfers.any (fun r => r.bridgeTransferId = ev.id)
        then st.bridgeTransfers
        else record :: st.bridgeTransfers
      let nType :=
        if status = "completed" then "success"
        else if status = "pending" then "info"
        else if status = "failed" then "error"
        else "info"
      let nTitle :=
        if status = "completed" then "Deposit Received"
        else if status = "pending" then "Deposit Pending"
        else if status = "failed" then "Deposit Failed"
        else "Deposit Update"
      let priority :=
        if status = "failed" then "urgent"
        else if status = "completed" ∧ 10000 ≤ ev.amount then "high"
        else "normal"
      let notif :=
        createNotification st.prefs va.userId nType nTitle "" priority
          "transaction"
      { st with
        bridgeTransfers := transfers
        notifications :=
          match notif with
          | some n => n :: st.notifications
          | none => st.notifications }

/-! ## Transfer cancellation (src/services/transferService.js) -/

/-- The ownership lookup of `cancelTransfer`: row matched by Bridge
transfer ID and owning user. -/
def matchesTransfer (transferId : String) (userId : Nat)
    (r : TransferRow) : Bool :=
  r.bridgeTransferId = transferId ∧ r.userId = userId

/-- `cancelTransfer`: the transfer must exist with matching user (else
"Transfer not found or unauthorized") and be in status `pending` (else
"Can only cancel pending transfers"); on success the row keyed by the
Bridge transfer ID becomes `cancelled` with `cancelled_at` and
`updated_at` stamped, and a notification is created (category
`transaction`, priority `normal`). -/
def cancelTransfer (transfers : List TransferRow)
    (prefs : List NotificationPrefs) (notifs : List NotifRow)
    (userId : Nat) (transferId : String) (now : Int) :
    Except String (List TransferRow × List NotifRow) :=
  match transfers.find? (matchesTransfer transferId userId) with
  | none => .error "Transfer not found or unauthorized"
  | some t =>
    if t.status ≠ "pending" then .error "Can only cancel pending transfers"
    else
      let updated := transfers.map fun r =>
        if r.bridgeTransferId = transferId then
          { r with
            status := "cancelled"
            cancelledAt := some now
            updatedAt := now }
        else r
      let notif :=
        createNotification prefs userId "info" "Transfer Cancelled"
          "Your transfer has been cancelled." "normal" "transaction"
      .ok (updated,
        match notif with
        | some n => n :: notifs
        | none => notifs)

/-! ## Helper lemmas -/

theorem isRetryable_eq (cfg : BridgeConfig) (rc : Option Nat) (e : ErrorKind) :
    isRetryable cfg rc e =
      (!retryCountGE rc cfg.retryAttempts && transientError cfg e) := by
  unfold isRetryable transientError
  cases h : retryCountGE rc cfg.retryAttempts <;> cases e <;> simp

theorem addIdempotencyKey_some (m k f : String) :
    addIdempotencyKey m (some k) f = some k := by
  unfold addIdempotencyKey
  split <;> rfl

theorem attemptKeys_some (m k : String) (fs : List String) :
    attemptKeys m (some k) fs = fs.map fun _ => some k := by
  induction fs with
  | nil => rfl
  | cons f fs ih => simp [attemptKeys, addIdempotencyKey_some, ih]

theorem toLower_post : "post".toLower = "post" := by
  show String.map Char.toLower "post" = "post"
  rw [String.map_eq]
  decide

theorem toLower_put : "put".toLower = "put" := by
  show String.map Char.toLower "put" = "put"
  rw [String.map_eq]
  decide

theorem toLower_patch : "patch".toLower = "patch" := by
  show String.map Char.toLower "patch" = "patch"
  rw [String.map_eq]
  decide

theorem daily_window_iff (last now : Int) :
    (24 ≤ ((now : Rat) - (last : Rat)) / (1000 * 60 * 60)) ↔
      24 * 60 * 60 * 1000 ≤ now - last := by
  rw [le_div_iff₀ (by norm_num)]
  constructor
  · intro h
    have h' : ((24 * 60 * 60 * 1000 : Int) : Rat) ≤ ((now - last : Int) : Rat) := by
      push_cast
      linarith
    exact_mod_cast h'
  · intro h
    have h' : ((24 * 60 * 60 * 1000 : Int) : Rat) ≤ ((now - last : Int) : Rat) := by
      exact_mod_cast h
    push_cast at h'
    linarith

theorem monthly_window_iff (last now : Int) :
    (30 ≤ ((now : Rat) - (last : Rat)) / (1000 * 60 * 60 * 24)) ↔
      30 * 24 * 60 * 60 * 1000 ≤ now - last := by
  rw [le_div_iff₀ (by norm_num)]
  constructor
  · intro h
    have h' : ((30 * 24 * 60 * 60 * 1000 : Int) : Rat) ≤
        ((now - last : Int) : Rat) := by
      push_cast
      linarith
    exact_mod_cast h'
  · intro h
    have h' : ((30 * 24 * 60 * 60 * 1000 : Int) : Rat) ≤
        ((now - last : Int) : Rat) := by
      exact_mod_cast h
    push_cast at h'
    linarith

/-! ## Claims -/

/-- C1: the Bridge HTTP client retries a failed attempt exactly when no
response was received or the status is one of {429, 500, 502, 503, 504};
the n-th retry (n = i + 1 below) waits `retryDelay * 2 ^ (n - 1)` ms, at
most `retryAttempts` (3 by configuration) retries happen, after which
the last error is surfaced as terminal; any other failing status is
surfaced immediately with zero retries (an empty delay list). -/
theorem C1_retry_policy :
    (∀ es : List ErrorKind,
        (∀ e ∈ es, transientError bridgeConfig e = true) →
        es.length = bridgeConfig.retryAttempts + 1 →
        ∃ elast, es.getLast? = some elast ∧
          runRequest bridgeConfig none (es.map .fail) =
            .err elast ((List.range bridgeConfig.retryAttempts).map
              fun i => bridgeConfig.retryDelay * 2 ^ i)) ∧
    (∀ (s : Nat) (rest : List AttemptOutcome),
        bridgeConfig.retryableStatusCodes.contains s = false →
        runRequest bridgeConfig none (.fail (.status s) :: rest) =
          .err (.status s) []) := by
  constructor
  · intro es h hl
    match es, hl with
    | [e1, e2, e3, e4], _ =>
      have h1 := h e1 (by simp)
      have h2 := h e2 (by simp)
      have h3 := h e3 (by simp)
      have h4 := h e4 (by simp)
      refine ⟨e4, by simp, ?_⟩
      have hrange : ((List.range bridgeConfig.retryAttempts).map
          fun i => bridgeConfig.retryDelay * 2 ^ i) = [1000, 2000, 4000] := by
        decide
      rw [hrange]
      have hA : bridgeConfig.retryAttempts = 3 := rfl
      have hD : bridgeConfig.retryDelay = 1000 := rfl
      simp [runRequest, isRetryable_eq, retryCountGE, hA, hD, h1, h2, h3, h4]
  · intro s rest h
    have hs : s ∉ bridgeConfig.retryableStatusCodes := by simpa using h
    simp [runRequest, isRetryable_eq, retryCountGE, transientError, hs]

/-- Witness for C1: four consecutive transient failures (network error
then 500, 429, 503) exhaust the three configured retries with delays
1000, 2000, 4000 ms and surface the last error; a 404 fails immediately
with no retry. -/
theorem C1_retry_policy_witness :
    runRequest bridgeConfig none
        ([ErrorKind.noResponse, .status 500, .status 429, .status 503].map
          .fail) =
      .err (.status 503) [1000, 2000, 4000] ∧
    runRequest bridgeConfig none [.fail (.status 404)] =
      .err (.status 404) [] := by
  refine ⟨?_, C1_retry_policy.2 404 [] (by decide)⟩
  obtain ⟨el, hl, hr⟩ := C1_retry_policy.1
    [.noResponse, .status 500, .status 429, .status 503] (by decide) (by decide)
  have hel : ErrorKind.status 503 = el := by simpa using hl
  subst hel
  have hrange : ((List.range bridgeConfig.retryAttempts).map
      fun i => bridgeConfig.retryDelay * 2 ^ i) = [1000, 2000, 4000] := by
    decide
  rw [hrange] at hr
  exact hr

/-- C2 counterexample: a PATCH request (a mutating method) with no
caller-supplied key gets no Idempotency-Key header attached — the
interceptor auto-generates one only for POST and PUT — and every retry
of that PATCH is likewise sent without a key. -/
theorem C2_counterexample :
    addIdempotencyKey "patch" none "generated-uuid-1" = none ∧
    attemptKeys "patch" none ["generated-uuid-1", "generated-uuid-2"] =
      [none, none] := by
  constructor
  · simp [addIdempotencyKey, toLower_patch]
  · simp [attemptKeys, addIdempotencyKey, toLower_patch]

/-- C2 amended: for every POST or PUT request the client attaches an
Idempotency-Key — the caller-supplied key if one was given, otherwise
the freshly generated key — and every retry of that same attempt
re-runs the interceptor against the already-attached key and so carries
the identical key; PATCH requests never receive an auto-generated key
(only a caller-supplied one, which is likewise preserved across
retries). -/
theorem C2_idempotency_key :
    (∀ f : String, addIdempotencyKey "post" none f = some f ∧
        addIdempotencyKey "put" none f = some f) ∧
    (∀ m k f : String, addIdempotencyKey m (some k) f = some k) ∧
    (∀ (m k : String) (fs : List String),
        attemptKeys m (some k) fs = fs.map fun _ => some k) ∧
    (∀ (m f : String) (fs : List String),
        m.toLower = "post" ∨ m.toLower = "put" →
        attemptKeys m none (f :: fs) = some f :: fs.map fun _ => some f) ∧
    (∀ fs : List String, attemptKeys "patch" none fs = fs.map fun _ => none) := by
  refine ⟨?_, addIdempotencyKey_some, attemptKeys_some, ?_, ?_⟩
  · intro f
    exact ⟨by simp [addIdempotencyKey, toLower_post],
      by simp [addIdempotencyKey, toLower_put]⟩
  · intro m f fs hm
    simp [attemptKeys, addIdempotencyKey, hm, attemptKeys_some]
  · intro fs
    induction fs with
    | nil => rfl
    | cons f fs ih => simp [attemptKeys, addIdempotencyKey, toLower_patch, ih]

/-- Witness for C2: a POST with no caller key attaches the first
generated key and re-sends the same key on both subsequent retries. -/
theorem C2_idempotency_key_witness :
    attemptKeys "post" none ["u1", "u2", "u3"] =
      [some "u1", some "u1", some "u1"] := by
  have h := C2_idempotency_key.2.2.2.1 "post" "u1" ["u2", "u3"]
    (Or.inl toLower_post)
  simpa using h

/-- C5: for a transfer.updated event matching a local transaction, the
stored status follows the fixed table pending→pending,
processing→processing, payment_processed→completed, failed→failed,
cancelled→cancelled, with every unrecognized provider state mapping to
processing; the update stamps completed_at exactly when the new status
is completed and leaves it untouched for every other resulting
status. -/
theorem C5_transfer_status_mapping :
    (mappedTransferStatus "pending" = "pending" ∧
     mappedTransferStatus "processing" = "processing" ∧
     mappedTransferStatus "payment_processed" = "completed" ∧
     mappedTransferStatus "failed" = "failed" ∧
     mappedTransferStatus "cancelled" = "cancelled") ∧
    (∀ s : String, s ≠ "pending" → s ≠ "processing" →
        s ≠ "payment_processed" → s ≠ "failed" → s ≠ "cancelled" →
        mappedTransferStatus s = "processing") ∧
    (∀ (txs : List TxRow) (evTransferId evState : String) (now : Int)
        (tx : TxRow),
        txs.find? (fun t => t.bridgeTransferId = evTransferId) = some tx →
        handleTransferUpdated txs evTransferId evState now =
          txs.map fun t =>
            if t.id = tx.id then applyTransferUpdate evState now t else t) ∧
    (∀ (state : String) (now : Int) (t : TxRow),
        (applyTransferUpdate state now t).status = mappedTransferStatus state ∧
        (applyTransferUpdate state now t).completedAt =
          (if mappedTransferStatus state = "completed" then some now
           else t.completedAt)) := by
  refine ⟨⟨rfl, rfl, rfl, rfl, rfl⟩, ?_, ?_, ?_⟩
  · intro s h1 h2 h3 h4 h5
    unfold mappedTransferStatus transferStatusMap
    split <;> simp_all
  · intro txs evTransferId evState now tx h
    simp [handleTransferUpdated, h]
  · intro state now t
    exact ⟨rfl, rfl⟩

/-- Witness for C5: an unrecognized provider state maps to processing,
and on a one-row store the matching row is updated in place with the
mapped status. -/
theorem C5_transfer_status_mapping_witness :
    mappedTransferStatus "on_hold" = "processing" ∧
    handleTransferUpdated
        [⟨1, 7, "bt1", "pending", "pending", none, 0⟩] "bt1"
        "payment_processed" 5000 =
      [⟨1, 7, "bt1", "completed", "payment_processed", some 5000, 5000⟩] := by
  constructor
  · exact C5_transfer_status_mapping.2.1 "on_hold" (by decide) (by decide)
      (by decide) (by decide) (by decide)
  · rw [C5_transfer_status_mapping.2.2.1
      [⟨1, 7, "bt1", "pending", "pending", none, 0⟩] "bt1"
      "payment_processed" 5000 ⟨1, 7, "bt1", "pending", "pending", none, 0⟩
      (by simp)]
    simp [applyTransferUpdate, mappedTransferStatus, transferStatusMap]

/-- C7: mapBridgeStatusToKalypso is a pure function (a Lean function of
its two arguments); its tier equals 2 iff the endorsement list holds an
entry named ach or base with status approved, is 1 otherwise, and does
not depend on the provider status string, so re-evaluation on a later
sync can lower the tier when endorsements are revoked. -/
theorem C7_kyc_tier_rule :
    (∀ (s : String) (es : List Endorsement),
        ((mapBridgeStatusToKalypso s es).kycTier = 2 ↔
          ∃ e ∈ es, (e.name = "ach" ∨ e.name = "base") ∧
            e.status = "approved") ∧
        ((mapBridgeStatusToKalypso s es).kycTier = 2 ∨
          (mapBridgeStatusToKalypso s es).kycTier = 1)) ∧
    (∀ (s s' : String) (es : List Endorsement),
        (mapBridgeStatusToKalypso s es).kycTier =
          (mapBridgeStatusToKalypso s' es).kycTier) := by
  refine ⟨fun s es => ⟨?_, ?_⟩, fun s s' es => rfl⟩
  · by_cases h : hasRequiredEndorsements es
    · simp only [mapBridgeStatusToKalypso, if_pos h]
      simpa [hasRequiredEndorsements, List.any_eq_true] using h
    · simp only [mapBridgeStatusToKalypso, if_neg h]
      simp only [hasRequiredEndorsements, List.any_eq_true] at h
      push_neg at h
      simpa using h
  · by_cases h : hasRequiredEndorsements es <;>
      simp [mapBridgeStatusToKalypso, h]

/-- C10: when a user has no stored notification_preferences row,
createNotification skips the category and priority filtering entirely
and inserts the notification whatever the category and priority are;
suppression can only happen when a preferences row exists. -/
theorem C10_no_prefs_bypass (prefsTable : List NotificationPrefs)
    (userId : Nat) (ty title msg priority category : String)
    (h : prefsTable.find? (fun p => p.userId = userId) = none) :
    createNotification prefsTable userId ty title msg priority category =
      some ⟨userId, ty, title, msg, priority, category⟩ := by
  simp [createNotification, h]

/-- Witness for C10: a user with no preferences row (another user's row
disabling everything is present) still gets a low-priority notification
of an exotic category. -/
theorem C10_no_prefs_bypass_witness :
    createNotification
        [⟨5, false, false, false, false, false, false, "urgent"⟩]
        7 "info" "t" "m" "low" "card" =
      some ⟨7, "info", "t", "m", "low", "card"⟩ :=
  C10_no_prefs_bypass
    [⟨5, false, false, false, false, false, false, "urgent"⟩]
    7 "info" "t" "m" "low" "card" (by simp)

/-- C6: an approved purchase of `amount` resets the daily counter to
`amount` with a fresh reset time when at least 24 hours (in ms) elapsed
since last_daily_reset, and otherwise adds `amount` leaving the reset
time unchanged; the monthly counter behaves identically with a 30-day
window; in particular spend 40 with reset 23 h ago plus a 10 purchase
gives 50 with the reset unchanged, and with reset 25 h ago gives 10
with the reset set to now. -/
theorem C6_spend_counters :
    (∀ (card : CardRow) (amount : Rat) (now : Int),
      (24 * 60 * 60 * 1000 ≤ now - card.lastDailyReset →
        (updateCardSpendingLimits card amount now).currentDailySpend =
            amount ∧
          (updateCardSpendingLimits card amount now).lastDailyReset = now) ∧
      (now - card.lastDailyReset < 24 * 60 * 60 * 1000 →
        (updateCardSpendingLimits card amount now).currentDailySpend =
            card.currentDailySpend + amount ∧
          (updateCardSpendingLimits card amount now).lastDailyReset =
            card.lastDailyReset) ∧
      (30 * 24 * 60 * 60 * 1000 ≤ now - card.lastMonthlyReset →
        (updateCardSpendingLimits card amount now).currentMonthlySpend =
            amount ∧
          (updateCardSpendingLimits card amount now).lastMonthlyReset =
            now) ∧
      (now - card.lastMonthlyReset < 30 * 24 * 60 * 60 * 1000 →
        (updateCardSpendingLimits card amount now).currentMonthlySpend =
            card.currentMonthlySpend + amount ∧
          (updateCardSpendingLimits card amount now).lastMonthlyReset =
            card.lastMonthlyReset)) ∧
    ((updateCardSpendingLimits
          ⟨1, 7, "bc1", 500, 5000, 40, 40, 90000000000 - 23 * 3600000,
            90000000000⟩ 10 90000000000).currentDailySpend = 50 ∧
      (updateCardSpendingLimits
          ⟨1, 7, "bc1", 500, 5000, 40, 40, 90000000000 - 23 * 3600000,
            90000000000⟩ 10 90000000000).lastDailyReset =
        90000000000 - 23 * 3600000) ∧
    ((updateCardSpendingLimits
          ⟨1, 7, "bc1", 500, 5000, 40, 40, 90000000000 - 25 * 3600000,
            90000000000⟩ 10 90000000000).currentDailySpend = 10 ∧
      (updateCardSpendingLimits
          ⟨1, 7, "bc1", 500, 5000, 40, 40, 90000000000 - 25 * 3600000,
            90000000000⟩ 10 90000000000).lastDailyReset = 90000000000) := by
  have main : ∀ (card : CardRow) (amount : Rat) (now : Int),
      (24 * 60 * 60 * 1000 ≤ now - card.lastDailyReset →
        (updateCardSpendingLimits card amount now).currentDailySpend =
            amount ∧
          (updateCardSpendingLimits card amount now).lastDailyReset = now) ∧
      (now - card.lastDailyReset < 24 * 60 * 60 * 1000 →
        (updateCardSpendingLimits card amount now).currentDailySpend =
            card.currentDailySpend + amount ∧
          (updateCardSpendingLimits card amount now).lastDailyReset =
            card.lastDailyReset) ∧
      (30 * 24 * 60 * 60 * 1000 ≤ now - card.lastMonthlyReset →
        (updateCardSpendingLimits card amount now).currentMonthlySpend =
            amount ∧
          (updateCardSpendingLimits card amount now).lastMonthlyReset =
            now) ∧
      (now - card.lastMonthlyReset < 30 * 24 * 60 * 60 * 1000 →
        (updateCardSpendingLimits card amount now).currentMonthlySpend =
            card.currentMonthlySpend + amount ∧
          (updateCardSpendingLimits card amount now).lastMonthlyReset =
            card.lastMonthlyReset) := by
    intro card amount now
    refine ⟨fun h => ?_, fun h => ?_, fun h => ?_, fun h => ?_⟩
    · have hd : 24 ≤ ((now : Rat) - (card.lastDailyReset : Rat)) /
          (1000 * 60 * 60) := (daily_window_iff _ _).mpr h
      simp [updateCardSpendingLimits, hd]
    · have hd : ¬ (24 ≤ ((now : Rat) - (card.lastDailyReset : Rat)) /
          (1000 * 60 * 60)) := by
        rw [daily_window_iff]
        omega
      simp [updateCardSpendingLimits, hd]
    · have hm : 30 ≤ ((now : Rat) - (card.lastMonthlyReset : Rat)) /
          (1000 * 60 * 60 * 24) := (monthly_window_iff _ _).mpr h
      simp [updateCardSpendingLimits, hm]
    · have hm : ¬ (30 ≤ ((now : Rat) - (card.lastMonthlyReset : Rat)) /
          (1000 * 60 * 60 * 24)) := by
        rw [monthly_window_iff]
        omega
      simp [updateCardSpendingLimits, hm]
  refine ⟨main, ?_, ?_⟩
  · have h := (main ⟨1, 7, "bc1", 500, 5000, 40, 40,
      90000000000 - 23 * 3600000, 90000000000⟩ 10 90000000000).2.1
      (by norm_num)
    refine ⟨?_, h.2⟩
    rw [h.1]
    show (40 : Rat) + 10 = 50
    norm_num
  · exact (main ⟨1, 7, "bc1", 500, 5000, 40, 40,
      90000000000 - 25 * 3600000, 90000000000⟩ 10 90000000000).1
      (by norm_num)

/-- Witness for C6: the two concrete scenarios of the claim, obtained by
applying the general counter rule at amount 10 and the stated reset
ages. -/
theorem C6_spend_counters_witness :
    (updateCardSpendingLimits
        ⟨1, 7, "bc1", 500, 5000, 40, 40, 90000000000 - 23 * 3600000,
          90000000000⟩ 10 90000000000).currentDailySpend = 50 ∧
    (updateCardSpendingLimits
        ⟨1, 7, "bc1", 500, 5000, 40, 40, 90000000000 - 25 * 3600000,
          90000000000⟩ 10 90000000000).currentDailySpend = 10 := by
  have h1 := (C6_spend_counters.1 ⟨1, 7, "bc1", 500, 5000, 40, 40,
    90000000000 - 23 * 3600000, 90000000000⟩ 10 90000000000).2.1
    (by norm_num)
  have h2 := (C6_spend_counters.1 ⟨1, 7, "bc1", 500, 5000, 40, 40,
    90000000000 - 25 * 3600000, 90000000000⟩ 10 90000000000).1
    (by norm_num)
  refine ⟨?_, h2.1⟩
  rw [h1.1]
  norm_num

/-- C9: cancelTransfer succeeds exactly when the transfer exists for
that user in stored status pending, in which case the row keyed by the
Bridge transfer ID becomes cancelled with cancelled_at stamped; a
transfer in any other status yields the error "Can only cancel pending
transfers" (the store is not touched), and a missing or foreign
transfer yields "Transfer not found or unauthorized". -/
theorem C9_cancel_transfer :
    (∀ (transfers : List TransferRow) (prefs : List NotificationPrefs)
        (notifs : List NotifRow) (userId : Nat) (transferId : String)
        (now : Int) (t : TransferRow),
      transfers.find? (matchesTransfer transferId userId) = some t →
      t.status = "pending" →
      ∃ notifs',
        cancelTransfer transfers prefs notifs userId transferId now =
          .ok (transfers.map fun r =>
            if r.bridgeTransferId = transferId then
              { r with
                status := "cancelled"
                cancelledAt := some now
                updatedAt := now }
            else r, notifs')) ∧
    (∀ (transfers : List TransferRow) (prefs : List NotificationPrefs)
        (notifs : List NotifRow) (userId : Nat) (transferId : String)
        (now : Int) (t : TransferRow),
      transfers.find? (matchesTransfer transferId userId) = some t →
      t.status ≠ "pending" →
      cancelTransfer transfers prefs notifs userId transferId now =
        .error "Can only cancel pending transfers") ∧
    (∀ (transfers : List TransferRow) (prefs : List NotificationPrefs)
        (notifs : List NotifRow) (userId : Nat) (transferId : String)
        (now : Int),
      transfers.find? (matchesTransfer transferId userId) = none →
      cancelTransfer transfers prefs notifs userId transferId now =
        .error "Transfer not found or unauthorized") ∧
    (∀ (transfers : List TransferRow) (prefs : List NotificationPrefs)
        (notifs : List NotifRow) (userId : Nat) (transferId : String)
        (now : Int) (p : List TransferRow × List NotifRow),
      cancelTransfer transfers prefs notifs userId transferId now = .ok p →
      ∃ t, transfers.find? (matchesTransfer transferId userId) = some t ∧
        t.status = "pending") := by
  refine ⟨?_, ?_, ?_, ?_⟩
  · intro transfers prefs notifs userId transferId now t hf hp
    unfold cancelTransfer
    rw [hf]
    simp only [hp, ne_eq, not_true_eq_false, if_false, Bool.false_eq_true,
      ite_false]
    exact ⟨_, rfl⟩
  · intro transfers prefs notifs userId transferId now t hf hp
    unfold cancelTransfer
    rw [hf]
    simp [hp]
  · intro transfers prefs notifs userId transferId now hf
    unfold cancelTransfer
    rw [hf]

  · intro transfers prefs notifs userId transferId now p hok
    unfold cancelTransfer at hok
    cases hf : transfers.find? (matchesTransfer transferId userId) with
    | none => rw [hf] at hok; exact absurd hok (by simp)
    | some t =>
      rw [hf] at hok
      by_cases hp : t.status = "pending"
      · exact ⟨t, rfl, hp⟩
      · simp [hp] at hok

/-- Witness for C9: on a two-row store, cancelling the pending transfer
succeeds and stamps cancelled_at, cancelling the processing one is
rejected, and an unknown ID is not found. -/
theorem C9_cancel_transfer_witness :
    (∃ notifs',
      cancelTransfer
          [⟨7, "bt1", "external", 5, "usdc", 0, 5, "pending", none, none, 0⟩]
          [] [] 7 "bt1" 4000 =
        .ok ([⟨7, "bt1", "external", 5, "usdc", 0, 5, "cancelled", none,
          some 4000, 4000⟩], notifs')) ∧
    cancelTransfer
        [⟨7, "bt2", "external", 5, "usdc", 0, 5, "processing", none, none, 0⟩]
        [] [] 7 "bt2" 4000 =
      .error "Can only cancel pending transfers" ∧
    cancelTransfer [] [] [] 7 "bt3" 4000 =
      .error "Transfer not found or unauthorized" := by
  refine ⟨?_, ?_, ?_⟩
  · obtain ⟨notifs', h⟩ := C9_cancel_transfer.1
      [⟨7, "bt1", "external", 5, "usdc", 0, 5, "pending", none, none, 0⟩]
      [] [] 7 "bt1" 4000
      ⟨7, "bt1", "external", 5, "usdc", 0, 5, "pending", none, none, 0⟩
      (by simp [matchesTransfer]) rfl
    exact ⟨notifs', by simpa using h⟩
  · exact C9_cancel_transfer.2.1
      [⟨7, "bt2", "external", 5, "usdc", 0, 5, "processing", none, none, 0⟩]
      [] [] 7 "bt2" 4000
      ⟨7, "bt2", "external", 5, "usdc", 0, 5, "processing", none, none, 0⟩
      (by simp [matchesTransfer]) (by simp)
  · exact C9_cancel_transfer.2.2.1 [] [] [] 7 "bt3" 4000 (by simp)

theorem kycConfig_mapped_isSome (s : String) (es : List Endorsement) :
    (kycNotificationConfig (mapBridgeStatusToKalypso s es).kycStatus).isSome =
      true := by
  have h : (mapBridgeStatusToKalypso s es).kycStatus =
      (customerStatusMap s).getD "pending" := rfl
  rw [h]
  unfold customerStatusMap
  split <;> simp [kycNotificationConfig]

/-- C4 counterexample: a customer.updated event that moves the mapped
status from the stored `pending` to `approved` produces zero
notifications — the webhook handler updates the user row but never
notifies — refuting that a notification is emitted when the mapped
status differs from the stored one. -/
theorem C4_counterexample :
    (mapBridgeStatusToKalypso "active" []).kycStatus = "approved" ∧
    "approved" ≠ "pending" ∧
    (handleCustomerUpdated [⟨1, some "bc1", "pending", 1⟩] []
        ⟨"bc1", "active", []⟩).2 = [] ∧
    (handleCustomerUpdated [⟨1, some "bc1", "pending", 1⟩] []
        ⟨"bc1", "active", []⟩).1 = [⟨1, some "bc1", "approved", 1⟩] := by
  refine ⟨rfl, by simp, ?_, ?_⟩ <;>
    simp [handleCustomerUpdated, mapBridgeStatusToKalypso,
      customerStatusMap, hasRequiredEndorsements]

/-- C4 amended: the customer.updated webhook handler updates the user's
KYC status and tier from the mapping but emits no notification under
any circumstances (the notifications store is untouched); the
emit-exactly-one-notification-iff-the-mapped-status-or-tier-changed
behaviour exists only in syncCustomerStatus, which the webhook handler
does not invoke: there, with no suppressing preferences row, a
notification is created iff the mapped (status, tier) differs from the
stored pair, and it is themed to the new status via the
approved/pending/under_review/rejected table. -/
theorem C4_customer_updated_notification :
    (∀ (users : List UserRow) (notifs : List NotifRow)
        (ev : CustomerUpdatedEvent),
        (handleCustomerUpdated users notifs ev).2 = notifs) ∧
    (∀ (users : List UserRow) (notifs : List NotifRow)
        (ev : CustomerUpdatedEvent) (user : UserRow),
        users.find? (fun u => u.bridgeCustomerId = some ev.customerId) =
          some user →
        (handleCustomerUpdated users notifs ev).1 =
          users.map fun u =>
            if u.id = user.id then
              { u with
                kycStatus :=
                  (mapBridgeStatusToKalypso ev.status ev.endorsements).kycStatus
                kycTier :=
                  (mapBridgeStatusToKalypso ev.status ev.endorsements).kycTier }
            else u) ∧
    (∀ (prefsTable : List NotificationPrefs) (userId : Nat)
        (storedStatus : Option String) (storedTier : Option Nat)
        (bridgeStatus : String) (es : List Endorsement),
        prefsTable.find? (fun p => p.userId = userId) = none →
        ((syncCustomerStatus prefsTable userId storedStatus storedTier
            bridgeStatus es).2.isSome = true ↔
          (jsStrOr storedStatus "not_started" ≠
              (mapBridgeStatusToKalypso bridgeStatus es).kycStatus ∨
            storedTier.getD 0 ≠
              (mapBridgeStatusToKalypso bridgeStatus es).kycTier))) ∧
    (∀ (userId : Nat) (storedStatus : Option String) (storedTier : Option Nat)
        (bridgeStatus : String) (es : List Endorsement) (n : NotifRow),
        (syncCustomerStatus [] userId storedStatus storedTier
            bridgeStatus es).2 = some n →
        kycNotificationConfig
            (mapBridgeStatusToKalypso bridgeStatus es).kycStatus =
          some (n.type, n.title) ∧ n.userId = userId) := by
  refine ⟨?_, ?_, ?_, ?_⟩
  · intro users notifs ev
    unfold handleCustomerUpdated
    cases h : users.find? (fun u => u.bridgeCustomerId = some ev.customerId) <;>
      simp
  · intro users notifs ev user h
    unfold handleCustomerUpdated
    rw [h]
  · intro prefsTable userId storedStatus storedTier bridgeStatus es hp
    unfold syncCustomerStatus
    by_cases hc : jsStrOr storedStatus "not_started" ≠
        (mapBridgeStatusToKalypso bridgeStatus es).kycStatus ∨
        storedTier.getD 0 ≠
          (mapBridgeStatusToKalypso bridgeStatus es).kycTier
    · obtain ⟨⟨ty, title⟩, hcfg⟩ := Option.isSome_iff_exists.mp
        (kycConfig_mapped_isSome bridgeStatus es)
      simp only [if_pos hc, hcfg, createNotification, hp]
      simpa using hc
    · simp only [if_neg hc]
      simpa using hc
  · intro userId storedStatus storedTier bridgeStatus es n h
    unfold syncCustomerStatus at h
    by_cases hc : jsStrOr storedStatus "not_started" ≠
        (mapBridgeStatusToKalypso bridgeStatus es).kycStatus ∨
        storedTier.getD 0 ≠
          (mapBridgeStatusToKalypso bridgeStatus es).kycTier
    · obtain ⟨⟨ty, title⟩, hcfg⟩ := Option.isSome_iff_exists.mp
        (kycConfig_mapped_isSome bridgeStatus es)
      simp only [if_pos hc, hcfg, createNotification, List.find?_nil] at h
      obtain rfl : (⟨userId, ty, title, "", "normal", "general"⟩ : NotifRow) =
          n := by simpa using h
      exact ⟨hcfg, rfl⟩
    · simp only [if_neg hc] at h
      exact absurd h (by simp)

/-- Witness for C4 amended: with stored status pending and mapped status
approved, syncCustomerStatus (no preferences row) does create a
notification, and it is themed success/KYC Verification Complete; the
webhook handler applied to the same transition leaves the notification
store empty. -/
theorem C4_customer_updated_notification_witness :
    (syncCustomerStatus [] 7 (some "pending") (some 1) "active" []).2.isSome =
      true ∧
    (handleCustomerUpdated [⟨7, some "bc1", "pending", 1⟩] [⟨7, "a", "b", "c",
      "normal", "general"⟩] ⟨"bc1", "active", []⟩).2 =
      [⟨7, "a", "b", "c", "normal", "general"⟩] := by
  constructor
  · exact (C4_customer_updated_notification.2.2.1 [] 7 (some "pending")
      (some 1) "active" [] (by simp)).mpr
      (by simp [jsStrOr, mapBridgeStatusToKalypso, customerStatusMap])
  · exact C4_customer_updated_notification.1 [⟨7, some "bc1", "pending", 1⟩]
      [⟨7, "a", "b", "c", "normal", "general"⟩] ⟨"bc1", "active", []⟩

/-- C8 counterexample: a deposit whose own status is `failed` is
inserted with status `pending`, not `failed` — the insert maps every
status other than `completed` to `pending` — refuting the
completed/pending/failed passthrough. -/
theorem C8_counterexample :
    ((handleVirtualAccountDeposit ⟨[⟨1, 7, "va1"⟩], [], [], []⟩
        ⟨"dep1", some "va1", 50, none, some "failed", none, none⟩
        1000).bridgeTransfers.map fun r => r.status) = ["pending"] ∧
    "pending" ≠ "failed" := by
  constructor
  · simp [handleVirtualAccountDeposit]
  · simp

/-- C8 amended: for every virtual_account.deposit.created event whose
provider account ID resolves to a local virtual account, the inserted
deposit record of kind ach has status `completed` when the deposit's own
status field is `completed`, and status `pending` for every other value
— including `failed` and any missing status (passthrough holds only for
`completed` and, coincidentally, `pending`). -/
theorem C8_deposit_status (st : DepositState) (ev : DepositEvent) (now : Int)
    (accId : String) (va : VirtualAccountRow)
    (h1 : ev.externalAccountId = some accId)
    (h2 : st.virtualAccounts.find? (fun a => a.bridgeAccountId = accId) =
      some va)
    (h3 : st.bridgeTransfers.any (fun r => r.bridgeTransferId = ev.id) =
      false) :
    ∃ r, (handleVirtualAccountDeposit st ev now).bridgeTransfers =
        r :: st.bridgeTransfers ∧
      r.transferType = "ach" ∧
      r.bridgeTransferId = ev.id ∧
      r.userId = va.userId ∧
      r.status = (if ev.status.getD "pending" = "completed" then "completed"
        else "pending") ∧
      (ev.status = some "completed" → r.status = "completed") ∧
      (ev.status = some "pending" → r.status = "pending") ∧
      (ev.status = some "failed" → r.status = "pending") ∧
      (ev.status = none → r.status = "pending") := by
  have hmain : (handleVirtualAccountDeposit st ev now).bridgeTransfers =
      ({ userId := va.userId
         bridgeTransferId := ev.id
         transferType := "ach"
         amount := ev.amount
         currency := (ev.currency.getD "usd").toUpper.toLower
         fee := 0
         totalAmount := ev.amount
         status := if ev.status.getD "pending" = "completed" then "completed"
           else "pending"
         completedAt := if ev.status.getD "pending" = "completed" then
           some (ev.completedAt.getD now) else none
         cancelledAt := none
         updatedAt := now } : TransferRow) :: st.bridgeTransfers := by
    unfold handleVirtualAccountDeposit
    rw [h1]
    simp [h2, h3]
  refine ⟨_, hmain, rfl, rfl, rfl, rfl, ?_, ?_, ?_, ?_⟩ <;>
    intro hs <;> simp [hs]

/-- Witness for C8 amended: on a one-account store, a failed deposit is
recorded with status pending and a completed one with status
completed. -/
theorem C8_deposit_status_witness :
    ((handleVirtualAccountDeposit ⟨[⟨1, 7, "va1"⟩], [], [], []⟩
        ⟨"dep1", some "va1", 50, none, some "failed", none, none⟩
        1000).bridgeTransfers.map fun r => r.status) = ["pending"] ∧
    ((handleVirtualAccountDeposit ⟨[⟨1, 7, "va1"⟩], [], [], []⟩
        ⟨"dep2", some "va1", 50, none, some "completed", none, none⟩
        1000).bridgeTransfers.map fun r => r.status) = ["completed"] := by
  constructor
  · obtain ⟨r, hr, -, -, -, -, -, -, hf, -⟩ :=
      C8_deposit_status ⟨[⟨1, 7, "va1"⟩], [], [], []⟩
        ⟨"dep1", some "va1", 50, none, some "failed", none, none⟩ 1000
        "va1" ⟨1, 7, "va1"⟩ rfl (by simp) (by simp)
    rw [hr]
    simp [hf rfl]
  · obtain ⟨r, hr, -, -, -, -, hc, -, -, -⟩ :=
      C8_deposit_status ⟨[⟨1, 7, "va1"⟩], [], [], []⟩
        ⟨"dep2", some "va1", 50, none, some "completed", none, none⟩ 1000
        "va1" ⟨1, 7, "va1"⟩ rfl (by simp) (by simp)
    rw [hr]
    simp [hc rfl]

theorem createNotification_no_prefs (prefsTable : List NotificationPrefs)
    (userId : Nat) (ty title msg priority category : String)
    (h : prefsTable.find? (fun p => p.userId = userId) = none) :
    createNotification prefsTable userId ty title msg priority category =
      some ⟨userId, ty, title, msg, priority, category⟩ := by
  simp [createNotification, h]

/-- One delivery of card.transaction.created with the card resolved and
no suppressing preferences row: the notification is appended
unconditionally, the preferences are untouched, the insert succeeds
exactly when no row with the provider transaction ID exists yet, and the
card stays resolvable under the same Bridge card ID with the same
owner. -/
theorem handleCardTransaction_step (st : CardState)
    (ev : CardTransactionEvent) (now : Int) (bcid : String) (card : CardRow)
    (hcid : ev.cardId = some bcid)
    (hfind : st.cards.find? (fun c => c.bridgeCardId = bcid) = some card)
    (hpref : st.prefs.find? (fun p => p.userId = card.userId) = none) :
    (∃ n : NotifRow,
      (handleCardTransaction st ev now).notifications =
        n :: st.notifications) ∧
    (handleCardTransaction st ev now).prefs = st.prefs ∧
    (st.cardTransactions.any (fun r => r.bridgeTransactionId = ev.id) =
        true →
      (handleCardTransaction st ev now).cardTransactions =
        st.cardTransactions) ∧
    (st.cardTransactions.any (fun r => r.bridgeTransactionId = ev.id) =
        false →
      ∃ newRow : CardTxRow,
        (handleCardTransaction st ev now).cardTransactions =
          newRow :: st.cardTransactions ∧
        newRow.bridgeTransactionId = ev.id) ∧
    (∃ card2 : CardRow,
      (handleCardTransaction st ev now).cards.find?
          (fun c => c.bridgeCardId = bcid) = some card2 ∧
      card2.userId = card.userId) := by
  unfold handleCardTransaction
  rw [hcid]
  simp only [hfind]
  refine ⟨?_, trivial, ?_, ?_, ?_⟩
  · rw [createNotification_no_prefs st.prefs card.userId _ _ _ _ _ hpref]
    exact ⟨_, rfl⟩
  · intro h
    simp [h]
  · intro h
    refine ⟨{ cardId := card.id
              userId := card.userId
              bridgeTransactionId := ev.id
              amount := ev.amount
              currency := (ev.currency.getD "usd").toUpper.toLower
              type := ev.type.getD "purchase"
              status := ev.status.getD "pending"
              settledAt := if ev.status.getD "pending" = "settled" then
                some now else none }, by simp [h], rfl⟩
  · by_cases happr : ((ev.status.getD "pending" = "approved" ∨
        ev.status.getD "pending" = "settled") ∧
        ev.type.getD "purchase" = "purchase")
    · rw [if_pos happr]
      have hcomp : ((fun c : CardRow => decide (c.bridgeCardId = bcid)) ∘
          fun c => if c.id = card.id then
            updateCardSpendingLimits c ev.amount now else c) =
          fun c : CardRow => decide (c.bridgeCardId = bcid) := by
        funext c
        by_cases hc : c.id = card.id <;> simp [hc, updateCardSpendingLimits]
      rw [List.find?_map, hcomp, hfind]
      refine ⟨_, rfl, ?_⟩
      by_cases hc : card.id = card.id <;> simp [hc, updateCardSpendingLimits]
    · rw [if_neg happr]
      exact ⟨card, hfind, rfl⟩

/-- C3 counterexample: delivering the identical approved card purchase
twice leaves exactly one CardTransaction row (the second insert is
rejected by the unique constraint on the provider transaction ID), but
each delivery creates its own notification, so two identical deliveries
produce two notifications — refuting "at most one notification in total
across both deliveries". -/
theorem C3_counterexample :
    ((handleCardTransaction (handleCardTransaction
          ⟨[⟨1, 7, "bc1", 500, 5000, 0, 0, 0, 0⟩], [], [], []⟩
          ⟨"btx1", some "bc1", 25, none, some "purchase", some "approved",
            none⟩ 1000)
        ⟨"btx1", some "bc1", 25, none, some "purchase", some "approved",
          none⟩ 2000).cardTransactions.countP
        (fun r => r.bridgeTransactionId = "btx1") = 1) ∧
    ((handleCardTransaction (handleCardTransaction
          ⟨[⟨1, 7, "bc1", 500, 5000, 0, 0, 0, 0⟩], [], [], []⟩
          ⟨"btx1", some "bc1", 25, none, some "purchase", some "approved",
            none⟩ 1000)
        ⟨"btx1", some "bc1", 25, none, some "purchase", some "approved",
          none⟩ 2000).notifications.length = 2) ∧
    ¬ ((handleCardTransaction (handleCardTransaction
          ⟨[⟨1, 7, "bc1", 500, 5000, 0, 0, 0, 0⟩], [], [], []⟩
          ⟨"btx1", some "bc1", 25, none, some "purchase", some "approved",
            none⟩ 1000)
        ⟨"btx1", some "bc1", 25, none, some "purchase", some "approved",
          none⟩ 2000).notifications.length ≤ 1) := by
  refine ⟨?_, ?_, ?_⟩ <;>
    simp [handleCardTransaction, updateCardSpendingLimits,
      createNotification, List.countP_cons]

/-- C3 amended: processing the identical card.transaction.created event
twice leaves exactly one CardTransaction row for that provider
transaction ID (the duplicate insert is rejected), but a notification is
created on each delivery, so two identical deliveries produce exactly
two notifications (absent preference suppression), not at most one. -/
theorem C3_replay (st : CardState) (ev : CardTransactionEvent)
    (now1 now2 : Int) (bcid : String) (card : CardRow)
    (hcid : ev.cardId = some bcid)
    (hfind : st.cards.find? (fun c => c.bridgeCardId = bcid) = some card)
    (hno : st.cardTransactions.any (fun r => r.bridgeTransactionId = ev.id) =
      false)
    (hpref : st.prefs = []) :
    (handleCardTransaction (handleCardTransaction st ev now1) ev
          now2).cardTransactions.countP
        (fun r => r.bridgeTransactionId = ev.id) = 1 ∧
    (handleCardTransaction (handleCardTransaction st ev now1) ev
          now2).notifications.length = st.notifications.length + 2 := by
  have hpref1 : st.prefs.find? (fun p => p.userId = card.userId) = none := by
    rw [hpref]
    rfl
  obtain ⟨⟨n1, hn1⟩, hprefs1, -, hins1, ⟨card2, hfind2, huser2⟩⟩ :=
    handleCardTransaction_step st ev now1 bcid card hcid hfind hpref1
  obtain ⟨newRow, hrows1, hid1⟩ := hins1 hno
  have hpref2 : (handleCardTransaction st ev now1).prefs.find?
      (fun p => p.userId = card2.userId) = none := by
    rw [hprefs1, hpref]
    rfl
  obtain ⟨⟨n2, hn2⟩, -, hdup2, -, -⟩ :=
    handleCardTransaction_step (handleCardTransaction st ev now1) ev now2
      bcid card2 hcid hfind2 hpref2
  have hany2 : (handleCardTransaction st ev now1).cardTransactions.any
      (fun r => r.bridgeTransactionId = ev.id) = true := by
    rw [hrows1]
    simp [hid1]
  have hrows2 := hdup2 hany2
  constructor
  · rw [hrows2, hrows1, List.countP_cons]
    have h0 : st.cardTransactions.countP
        (fun r => decide (r.bridgeTransactionId = ev.id)) = 0 :=
      List.countP_eq_zero.mpr (List.any_eq_false.mp hno)
    simp [hid1, h0]
  · rw [hn2, hn1]
    simp

/-- Witness for C3 amended: the concrete double delivery of an approved
25-unit purchase on a fresh card with no preferences ends with one row
and two notifications. -/
theorem C3_replay_witness :
    (handleCardTransaction (handleCardTransaction
          ⟨[⟨2, 9, "bc2", 500, 5000, 0, 0, 0, 0⟩], [], [], []⟩
          ⟨"btx2", some "bc2", 25, none, some "purchase", some "approved",
            none⟩ 1000)
        ⟨"btx2", some "bc2", 25, none, some "purchase", some "approved",
          none⟩ 2000).cardTransactions.countP
        (fun r => r.bridgeTransactionId = "btx2") = 1 ∧
    (handleCardTransaction (handleCardTransaction
          ⟨[⟨2, 9, "bc2", 500, 5000, 0, 0, 0, 0⟩], [], [], []⟩
          ⟨"btx2", some "bc2", 25, none, some "purchase", some "approved",
            none⟩ 1000)
        ⟨"btx2", some "bc2", 25, none, some "purchase", some "approved",
          none⟩ 2000).notifications.length = 2 := by
  have h := C3_replay ⟨[⟨2, 9, "bc2", 500, 5000, 0, 0, 0, 0⟩], [], [], []⟩
    ⟨"btx2", some "bc2", 25, none, some "purchase", some "approved", none⟩
    1000 2000 "bc2" ⟨2, 9, "bc2", 500, 5000, 0, 0, 0, 0⟩
    rfl (by simp) rfl rfl
  exact ⟨h.1, by simpa using h.2⟩

end Kalypso
